import Mathlib

/-!
Verification development for the CosmoShop POS / inventory backend.

The data model is a shallow embedding of the Django models in
`backend/inventory/models.py` and `backend/sales/models.py`:

* monetary `DecimalField`s are embedded as `ℚ` (exact arithmetic, never
  binary floating point);
* `PositiveIntegerField`s are embedded as `ℕ` (the field type itself
  guarantees non-negativity);
* foreign keys are embedded as row identifiers (`ℕ`);
* `MinValueValidator` declarations become decidable validation
  predicates;
* a Django model `save` method becomes a pure function on the row;
* the database becomes an explicit `DB` record of row lists, and the
  `on_delete=PROTECT` / `on_delete=CASCADE` declarations become the
  behaviour of explicit delete operations.

Timestamps, images and free-text ordering metadata are irrelevant to the
claims and are omitted.  Operations of the service layer (the views and
serializers are not part of the sources) are modelled from the spec where
a claim needs them; each such definition is marked `Modelled from the
spec:` in its doc comment.
-/

namespace Cosmo

/-- Embedding of `inventory.models.Product`: identity, pricing
(`cost_price`, `selling_price` with `MinValueValidator(0.01)` validators),
stock management (`stock_quantity`, `restock_threshold` are
`PositiveIntegerField`s, hence `ℕ`) and the `is_active` flag. -/
structure Product where
  sku : String
  name : String
  brand : String
  category : String
  description : String
  cost_price : ℚ
  selling_price : ℚ
  stock_quantity : ℕ
  restock_threshold : ℕ
  is_active : Bool
deriving DecidableEq, Repr

/-- Validation induced by the declared field validators of `Product`:
`MinValueValidator(Decimal(0.01))` on both `cost_price` and
`selling_price`.  (`stock_quantity`/`restock_threshold` are non-negative
by their field type, which the `ℕ` embedding captures.) -/
def Product.validate (p : Product) : Bool :=
  decide (1 / 100 ≤ p.cost_price) && decide (1 / 100 ≤ p.selling_price)

/-- Method `needs_restock`: stock at or below threshold. -/
def Product.needs_restock (p : Product) : Bool :=
  decide (p.stock_quantity ≤ p.restock_threshold)

/-- Method `profit_per_unit`: profit margin per unit. -/
def Product.profit_per_unit (p : Product) : ℚ :=
  p.selling_price - p.cost_price

/-- Method `profit_percentage`: profit as a percentage of cost,
`Decimal(0.00)` when `cost_price` is not positive. -/
def Product.profit_percentage (p : Product) : ℚ :=
  if 0 < p.cost_price then p.profit_per_unit / p.cost_price * 100 else 0

/-- Embedding of `inventory.models.StockReceipt`.  `product` and
`received_by` are the referenced row ids (both foreign keys are declared
`on_delete=PROTECT`); `quantity` is a `PositiveIntegerField` with
`MinValueValidator(1)` and `cost_price_at_receipt` a decimal with
`MinValueValidator(0.01)`. -/
structure StockReceipt where
  product : ℕ
  quantity : ℕ
  cost_price_at_receipt : ℚ
  supplier_name : String
  supplier_notes : String
  received_by : ℕ
deriving DecidableEq, Repr

/-- Validation induced by the declared validators of `StockReceipt`. -/
def StockReceipt.validate (r : StockReceipt) : Bool :=
  decide (1 ≤ r.quantity) && decide (1 / 100 ≤ r.cost_price_at_receipt)

/-- Embedding of `sales.models.Sale`.  `order_id` is declared
`unique=True`; `cashier` is the acting principal id (FK,
`on_delete=PROTECT`); `subtotal`, `tax`, `total` carry
`MinValueValidator(0.00)`; `profit` carries only a default of
`Decimal(0.00)` and no validator. -/
structure Sale where
  order_id : String
  cashier : ℕ
  subtotal : ℚ
  tax : ℚ
  total : ℚ
  profit : ℚ
  payment_method : String
  notes : String
deriving DecidableEq, Repr

/-- Validation induced by the declared field validators of `Sale`:
`MinValueValidator(Decimal(0.00))` on `subtotal`, `tax` and `total`.
The `profit` field declares no validator in the source, so it does not
appear here. -/
def Sale.validate (s : Sale) : Bool :=
  decide (0 ≤ s.subtotal) && decide (0 ≤ s.tax) && decide (0 ≤ s.total)

/-- The hex digit `n` (`n < 16`) as Python renders it after `.upper()`. -/
def hexDigitUpper (n : ℕ) : Char :=
  if n < 10 then Char.ofNat (48 + n) else Char.ofNat (55 + n)

/-- The first 8 characters of `uuid.uuid4().hex`, uppercased: `u` is the
128-bit UUID value and `uuid.hex` is its 32-digit zero-padded lowercase
hex rendering, most significant digit first, so character `i` is hex
digit `u / 16 ^ (31 - i) % 16`. -/
def uuidHex8Upper (u : ℕ) : List Char :=
  (List.range 8).map (fun i => hexDigitUpper (u / 16 ^ (31 - i) % 16))

/-- The order id generated by `Sale.save`:
`f"#ORD-{uuid.uuid4().hex[:8].upper()}"`. -/
def genOrderId (u : ℕ) : String :=
  "#ORD-" ++ String.mk (uuidHex8Upper u)

/-- Method `Sale.save`: auto-generate `order_id` if not provided (the Python
truthiness test `if not self.order_id` on a `CharField`, i.e. the empty
string).  `u` is the random 128-bit value drawn from `uuid.uuid4()`. -/
def Sale.save (u : ℕ) (s : Sale) : Sale :=
  if s.order_id = "" then { s with order_id := genOrderId u } else s

/-- Embedding of `sales.models.SaleItem`.  `sale` is the parent sale id
(`on_delete=CASCADE`), `product` the referenced product id
(`on_delete=PROTECT`); `quantity` carries `MinValueValidator(1)`;
`unit_price` and `unit_cost` are the snapshot decimals (no validators);
`subtotal` and `profit` are the stored calculated decimals, embedded as
`Option ℚ` because a freshly constructed row may leave them unset
(`None`) until `save` fills them. -/
structure SaleItem where
  sale : ℕ
  product : ℕ
  quantity : ℕ
  unit_price : ℚ
  unit_cost : ℚ
  subtotal : Option ℚ
  profit : Option ℚ
deriving DecidableEq, Repr

/-- Validation induced by the declared validators of `SaleItem`: only
`MinValueValidator(1)` on `quantity`; the snapshot and calculated
decimals declare no validators. -/
def SaleItem.validate (it : SaleItem) : Bool :=
  decide (1 ≤ it.quantity)

/-- Python falsiness of an optional decimal: `not x` is true for `None`
and for zero. -/
def falsy : Option ℚ → Bool
  | none => true
  | some x => decide (x = 0)

/-- Method `SaleItem.save`: auto-calculate `subtotal` and `profit` when the
stored value is falsy (`if not self.subtotal` / `if not self.profit`). -/
def SaleItem.save (it : SaleItem) : SaleItem :=
  { it with
    subtotal :=
      if falsy it.subtotal then some (it.unit_price * it.quantity) else it.subtotal
    profit :=
      if falsy it.profit then
        some ((it.unit_price - it.unit_cost) * it.quantity)
      else it.profit }

/-- The persisted state: the four row sets of the logical layout
(products keyed by row id, stock receipts, sales keyed by row id, sale
items), plus the next fresh sale row id. -/
structure DB where
  products : List (ℕ × Product)
  stock_receipts : List StockReceipt
  sales : List (ℕ × Sale)
  sale_items : List SaleItem
  next_sale_id : ℕ
deriving DecidableEq, Repr

/-- Look up a product row by id (first match). -/
def DB.findProduct (db : DB) (pid : ℕ) : Option Product :=
  (db.products.find? (fun e => e.1 = pid)).map (fun e => e.2)

/-- The stock on hand for product `pid` (0 when absent). -/
def DB.stockOf (db : DB) (pid : ℕ) : ℕ :=
  match db.findProduct pid with
  | some p => p.stock_quantity
  | none => 0

/-- Apply `f` to every product row with id `pid` (a Django row `save`
touches only the product table). -/
def DB.updateProduct (db : DB) (pid : ℕ) (f : Product → Product) : DB :=
  { db with
    products := db.products.map (fun e => if e.1 = pid then (e.1, f e.2) else e) }

/-- Catalog-management update of `selling_price` on one product row. -/
def DB.updateSellingPrice (db : DB) (pid : ℕ) (price : ℚ) : DB :=
  db.updateProduct pid (fun p => { p with selling_price := price })

/-- Catalog-management update of `cost_price` on one product row. -/
def DB.updateCostPrice (db : DB) (pid : ℕ) (price : ℚ) : DB :=
  db.updateProduct pid (fun p => { p with cost_price := price })

/-- Delete a product row.  `StockReceipt.product` and `SaleItem.product`
are declared `on_delete=PROTECT`, so the delete is refused (`none`,
Django's `ProtectedError` / the spec's `ReferentialIntegrityError`) while
a receipt or a sale item references the row; no state changes on
refusal. -/
def DB.deleteProduct (db : DB) (pid : ℕ) : Option DB :=
  if db.stock_receipts.any (fun r => r.product = pid)
      || db.sale_items.any (fun it => it.product = pid) then
    none
  else
    some { db with products := db.products.filter (fun e => !(e.1 = pid)) }

/-- Delete a sale row.  `SaleItem.sale` is declared
`on_delete=CASCADE`, so the sale's items are deleted with it; no other
table is touched. -/
def DB.deleteSale (db : DB) (sid : ℕ) : DB :=
  { db with
    sales := db.sales.filter (fun e => !(e.1 = sid)),
    sale_items := db.sale_items.filter (fun it => !(it.sale = sid)) }

/-- Insert a sale row: the store rejects a row whose `order_id` is
already present (`unique=True` on `Sale.order_id` is a hard database
constraint). -/
def insertSale (sales : List (ℕ × Sale)) (sid : ℕ) (s : Sale) :
    Option (List (ℕ × Sale)) :=
  if sales.any (fun e => e.2.order_id = s.order_id) then none
  else some ((sid, s) :: sales)

/-- No two sale rows share an `order_id`. -/
def distinctOrderIds (sales : List (ℕ × Sale)) : Prop :=
  sales.Pairwise (fun a b => a.2.order_id ≠ b.2.order_id)

/-- Modelled from the spec: Catalog Store `adjustStock` (§4.1) — the
view layer implementing it is not under `src/`.  Applies
`stock_quantity += delta` and fails (`InsufficientStock`) if the result
would go negative, so a stored stock count is never negative. -/
def adjustStock (stock : ℕ) (delta : ℤ) : Option ℕ :=
  if (stock : ℤ) + delta < 0 then none else some ((stock : ℤ) + delta).toNat

/-- Modelled from the spec: the Receiving Ledger `recordReceipt` (§4.2)
— the view layer implementing it is not under `src/`.  Validates the
inputs against the `StockReceipt` model validators, resolves the
product, then, as one atomic unit of work, inserts the receipt row and
increments the product's `stock_quantity` by `quantity`; any failure
returns `none` and the state is unchanged (full rollback). -/
def recordReceipt (db : DB) (pid quantity : ℕ) (cost : ℚ)
    (receivedBy : ℕ) (sname snotes : String) : Option DB :=
  let r : StockReceipt :=
    { product := pid, quantity := quantity, cost_price_at_receipt := cost,
      supplier_name := sname, supplier_notes := snotes,
      received_by := receivedBy }
  if !r.validate then none
  else
    match db.findProduct pid with
    | none => none
    | some _ =>
        some { db.updateProduct pid
                (fun p => { p with stock_quantity := p.stock_quantity + quantity }) with
               stock_receipts := r :: db.stock_receipts }

/-- A stock-affecting event against one product: a stock receipt of `q`
units or a sale line of `q` units. -/
inductive StockOp where
  | receipt : ℕ → StockOp
  | sale : ℕ → StockOp
deriving DecidableEq, Repr

/-- One product's history: current stock and the committed totals. -/
structure StockTrace where
  stock : ℕ
  receipts : ℕ
  sold : ℕ
deriving DecidableEq, Repr

/-- Modelled from the spec: one stock-affecting operation against one
product (§4.1–§4.3) — the view layer implementing the operations is not
under `src/`.  A receipt of `q ≥ 1` units commits `adjustStock (+q)`;
a sale line of `q ≥ 1` units commits `adjustStock (−q)`.  An operation
that fails validation or `adjustStock` commits nothing (full
rollback). -/
def stepStock (st : StockTrace) : StockOp → StockTrace
  | .receipt q =>
      if 1 ≤ q then
        match adjustStock st.stock (q : ℤ) with
        | some s => { stock := s, receipts := st.receipts + q, sold := st.sold }
        | none => st
      else st
  | .sale q =>
      if 1 ≤ q then
        match adjustStock st.stock (-(q : ℤ)) with
        | some s => { stock := s, receipts := st.receipts, sold := st.sold + q }
        | none => st
      else st

/-- Run a sequence of stock-affecting operations from an initial stock
count, tracking the committed receipt and sale totals. -/
def runStock (init : ℕ) (ops : List StockOp) : StockTrace :=
  ops.foldl stepStock { stock := init, receipts := 0, sold := 0 }

/-- One requested sale line: a product id and a quantity. -/
structure LineReq where
  product : ℕ
  quantity : ℕ
deriving DecidableEq, Repr

/-- The accumulator of the sale engine's per-line loop: the state after
the stock decrements so far, the sale items built so far, and the
running subtotal and profit. -/
structure SaleAcc where
  db : DB
  items : List SaleItem
  subtotal : ℚ
  profit : ℚ
deriving Repr

/-- Modelled from the spec: one line of `createSale` (§4.3 steps 2–3
and 6) — the view layer implementing it is not under `src/`.  The
product must exist, be active and have `stock_quantity ≥ quantity`
(`quantity ≥ 1`); the line snapshots `unit_price`/`unit_cost` from the
product, lets `SaleItem.save` fill the stored `subtotal` and `profit`,
and decrements the product's stock. -/
def saleLineStep (sid : ℕ) (acc : SaleAcc) (l : LineReq) : Option SaleAcc :=
  if l.quantity < 1 then none
  else
    match acc.db.findProduct l.product with
    | none => none
    | some p =>
        if !p.is_active then none
        else if p.stock_quantity < l.quantity then none
        else
          some
            { db := acc.db.updateProduct l.product
                (fun q => { q with stock_quantity := q.stock_quantity - l.quantity }),
              items := acc.items ++
                [SaleItem.save
                  { sale := sid, product := l.product, quantity := l.quantity,
                    unit_price := p.selling_price, unit_cost := p.cost_price,
                    subtotal := none, profit := none }],
              subtotal := acc.subtotal + p.selling_price * l.quantity,
              profit := acc.profit + (p.selling_price - p.cost_price) * l.quantity }

/-- Process the requested lines left to right; the first failing line
aborts the whole run (`none`). -/
def processLines (sid : ℕ) (acc : SaleAcc) : List LineReq → Option SaleAcc
  | [] => some acc
  | l :: ls =>
      match saleLineStep sid acc l with
      | none => none
      | some acc' => processLines sid acc' ls

/-- Modelled from the spec: the Sale Transaction Engine `createSale`
(§4.3) — the view layer implementing it is not under `src/`.  Validates
that the lines are non-empty, processes each line (stock check,
snapshot, decrement), sums the item subtotals and profits into the sale
header with `total = subtotal + tax`, generates an `order_id` through
`Sale.save` when the caller supplied none (`u` is the random 128-bit
UUID value), and persists header, items and decrements as one atomic
unit of work; any failure returns `none` with the state unchanged. -/
def createSale (db : DB) (cashier : ℕ) (pm : String) (tax : ℚ) (u : ℕ)
    (orderId : String) (lines : List LineReq) (notes : String) :
    Option (Sale × List SaleItem × DB) :=
  if lines.isEmpty then none
  else
    match processLines db.next_sale_id { db := db, items := [], subtotal := 0, profit := 0 } lines with
    | none => none
    | some acc =>
        let sale := Sale.save u
          { order_id := orderId, cashier := cashier, subtotal := acc.subtotal,
            tax := tax, total := acc.subtotal + tax, profit := acc.profit,
            payment_method := pm, notes := notes }
        match insertSale acc.db.sales db.next_sale_id sale with
        | none => none
        | some sales' =>
            some (sale, acc.items,
              { acc.db with
                sales := sales',
                sale_items := acc.items ++ acc.db.sale_items,
                next_sale_id := db.next_sale_id + 1 })

/-- The stored `subtotal` of a sale item, read as a decimal. -/
def itemSubtotal (it : SaleItem) : ℚ := it.subtotal.getD 0

/-- The stored `profit` of a sale item, read as a decimal. -/
def itemProfit (it : SaleItem) : ℚ := it.profit.getD 0

/-- Sum of the stored subtotals of a list of sale items. -/
def subtotalSum (l : List SaleItem) : ℚ := (l.map itemSubtotal).sum

/-- Sum of the stored profits of a list of sale items. -/
def profitSum (l : List SaleItem) : ℚ := (l.map itemProfit).sum

/-- An uppercase hexadecimal character. -/
def isUpperHex (c : Char) : Bool :=
  ("0123456789ABCDEF".toList).contains c

/-- A concrete sale row whose `profit` is negative while `subtotal`,
`tax` and `total` are all zero. -/
def negProfitSale : Sale :=
  { order_id := "#ORD-00000001", cashier := 1, subtotal := 0, tax := 0,
    total := 0, profit := -1, payment_method := "CASH", notes := "" }

/-- A concrete sale item whose stored `subtotal` was explicitly supplied
as zero. -/
def zeroSubtotalItem : SaleItem :=
  { sale := 1, product := 1, quantity := 1, unit_price := 5, unit_cost := 3,
    subtotal := some 0, profit := some 2 }

end Cosmo

namespace Cosmo

lemma hexDigitUpper_isUpperHex : ∀ n < 16, isUpperHex (hexDigitUpper n) = true := by
  decide

lemma sale_save_subtotal (u : ℕ) (s : Sale) : (Sale.save u s).subtotal = s.subtotal := by
  unfold Sale.save; split <;> rfl

lemma sale_save_tax (u : ℕ) (s : Sale) : (Sale.save u s).tax = s.tax := by
  unfold Sale.save; split <;> rfl

lemma sale_save_total (u : ℕ) (s : Sale) : (Sale.save u s).total = s.total := by
  unfold Sale.save; split <;> rfl

lemma sale_save_profit (u : ℕ) (s : Sale) : (Sale.save u s).profit = s.profit := by
  unfold Sale.save; split <;> rfl

/-- Claim C3: for every existing SaleItem, later updates to the
referenced Product's `selling_price` or `cost_price` leave the stored
sale item rows — hence each item's `unit_price`, `unit_cost`, `subtotal`
and `profit` — unchanged: a product-row save touches only the product
table, and the snapshot fields are copies, not references. -/
theorem claim_C3 (db : DB) (pid : ℕ) (price cost : ℚ) :
    (db.updateSellingPrice pid price).sale_items = db.sale_items ∧
    (db.updateCostPrice pid cost).sale_items = db.sale_items ∧
    ((db.updateSellingPrice pid price).updateCostPrice pid cost).sale_items
      = db.sale_items :=
  ⟨rfl, rfl, rfl⟩

/-- Claim C5 counterexample: a SaleItem whose `subtotal` was explicitly
supplied as zero is not preserved by `save` — the Python falsiness test
`if not self.subtotal` treats the supplied `Decimal(0)` like an absent
value and recomputes it to `unit_price * quantity = 5`. -/
theorem claim_C5_cex :
    (SaleItem.save zeroSubtotalItem).subtotal ≠ zeroSubtotalItem.subtotal := by
  simp [zeroSubtotalItem, SaleItem.save, falsy]

/-- Claim C5 (amended): `save` computes `subtotal = unit_price ×
quantity` and `profit = (unit_price − unit_cost) × quantity` exactly
when the stored field is falsy (absent or zero); a nonzero supplied
value is preserved as given, on this and on every later save. -/
theorem claim_C5 (it : SaleItem) :
    (falsy it.subtotal = true →
      (SaleItem.save it).subtotal = some (it.unit_price * it.quantity)) ∧
    (falsy it.subtotal = false → (SaleItem.save it).subtotal = it.subtotal) ∧
    (falsy it.profit = true →
      (SaleItem.save it).profit = some ((it.unit_price - it.unit_cost) * it.quantity)) ∧
    (falsy it.profit = false → (SaleItem.save it).profit = it.profit) := by
  refine ⟨fun h => ?_, fun h => ?_, fun h => ?_, fun h => ?_⟩ <;>
    simp [SaleItem.save, h]

/-- Claim C6 counterexample: a Sale with `profit = -1` and all of
`subtotal`, `tax`, `total` equal to zero passes validation — `profit`
declares no `MinValueValidator` in the source, so validation does not
reject every Sale with a negative monetary field. -/
theorem claim_C6_cex :
    Sale.validate negProfitSale = true ∧ negProfitSale.profit < 0 := by
  constructor
  · decide
  · norm_num [negProfitSale]

/-- Claim C6 (amended): validation constrains exactly `subtotal`, `tax`
and `total` to be ≥ 0 (each carries `MinValueValidator(0.00)`), and a
Sale in which any of these three is negative is rejected; `profit` only
defaults to 0.00 and carries no minimum-value validator, so a Sale with
negative profit is accepted. -/
theorem claim_C6 :
    (∀ s : Sale, Sale.validate s = true ↔ (0 ≤ s.subtotal ∧ 0 ≤ s.tax ∧ 0 ≤ s.total)) ∧
    (∃ s : Sale, Sale.validate s = true ∧ s.profit < 0) := by
  constructor
  · intro s
    simp [Sale.validate, and_assoc]
  · refine ⟨negProfitSale, ?_, ?_⟩
    · decide
    · norm_num [negProfitSale]

/-- Claim C9: `needs_restock` holds exactly when `stock_quantity ≤
restock_threshold`; `profit_per_unit` is `selling_price − cost_price`;
`profit_percentage` is `profit_per_unit / cost_price × 100` when
`cost_price` is positive and 0 otherwise. -/
theorem claim_C9 (p : Product) :
    (p.needs_restock = true ↔ p.stock_quantity ≤ p.restock_threshold) ∧
    p.profit_per_unit = p.selling_price - p.cost_price ∧
    (0 < p.cost_price →
      p.profit_percentage = p.profit_per_unit / p.cost_price * 100) ∧
    (¬0 < p.cost_price → p.profit_percentage = 0) := by
  refine ⟨?_, rfl, fun h => ?_, fun h => ?_⟩
  · simp [Product.needs_restock]
  · rw [Product.profit_percentage, if_pos h]
  · rw [Product.profit_percentage, if_neg h]

/-- Claim C10: SaleItem validation constrains only `quantity` (to ≥ 1):
it accepts a concrete item whose `unit_price` is negative and whose
`unit_cost` is zero, while Product validation requires both copied-from
prices to be ≥ 0.01. -/
theorem claim_C10 :
    (∀ it : SaleItem, SaleItem.validate it = true ↔ 1 ≤ it.quantity) ∧
    SaleItem.validate
      { sale := 0, product := 0, quantity := 1, unit_price := -5, unit_cost := 0,
        subtotal := none, profit := none } = true ∧
    (∀ p : Product, Product.validate p = true →
      1 / 100 ≤ p.cost_price ∧ 1 / 100 ≤ p.selling_price) := by
  refine ⟨fun it => ?_, by decide, fun p h => ?_⟩
  · simp [SaleItem.validate]
  · simpa [Product.validate] using h

/-- Claim C8: deleting a Product referenced by at least one StockReceipt
or SaleItem is refused (`none`: the PROTECT declarations make the store
raise `ReferentialIntegrityError` and change nothing), whereas deleting
a Sale always succeeds, removes exactly that Sale's items (CASCADE) and
leaves the product and receipt tables untouched. -/
theorem claim_C8 (db : DB) (pid sid : ℕ) :
    ((db.stock_receipts.any (fun r => r.product = pid)
        || db.sale_items.any (fun it => it.product = pid)) = true →
      db.deleteProduct pid = none) ∧
    (db.deleteSale sid).sale_items = db.sale_items.filter (fun it => !(it.sale = sid)) ∧
    (db.deleteSale sid).products = db.products ∧
    (db.deleteSale sid).stock_receipts = db.stock_receipts ∧
    (db.deleteSale sid).sales = db.sales.filter (fun e => !(e.1 = sid)) := by
  refine ⟨fun h => ?_, rfl, rfl, rfl, rfl⟩
  rw [DB.deleteProduct, if_pos h]

lemma uuidHex8Upper_length (u : ℕ) : (uuidHex8Upper u).length = 8 := by
  simp [uuidHex8Upper]

lemma uuidHex8Upper_isUpperHex (u : ℕ) :
    ∀ c ∈ uuidHex8Upper u, isUpperHex c = true := by
  intro c hc
  obtain ⟨i, _, rfl⟩ := List.mem_map.mp hc
  exact hexDigitUpper_isUpperHex _ (Nat.mod_lt _ (by norm_num))

lemma insertSale_distinct (sales out : List (ℕ × Sale)) (sid : ℕ) (t : Sale)
    (hd : distinctOrderIds sales) (h : insertSale sales sid t = some out) :
    distinctOrderIds out := by
  by_cases hc : sales.any (fun e => e.2.order_id = t.order_id) = true
  · rw [insertSale, if_pos hc] at h
    cases h
  · rw [insertSale, if_neg hc] at h
    obtain rfl := Option.some.inj h
    refine List.Pairwise.cons (fun e he => ?_) hd
    have hall := List.any_eq_false.mp (Bool.eq_false_iff.mpr hc) e he
    simpa [eq_comm] using hall

/-- Claim C7: when a Sale is saved without an `order_id`, `save`
generates `#ORD-` followed by exactly 8 uppercase hexadecimal characters
of the random 128-bit UUID value `u`; a caller-supplied (non-empty)
`order_id` is kept as given; and the store's `unique=True` constraint on
`order_id` makes inserting a duplicate fail, so a store whose committed
sales have pairwise-distinct order ids keeps that property across every
successful insert. -/
theorem claim_C7 (u sid : ℕ) (s t : Sale) (sales out : List (ℕ × Sale)) :
    (s.order_id = "" →
      (Sale.save u s).order_id = "#ORD-" ++ String.mk (uuidHex8Upper u) ∧
      (uuidHex8Upper u).length = 8 ∧
      ∀ c ∈ uuidHex8Upper u, isUpperHex c = true) ∧
    (s.order_id ≠ "" → (Sale.save u s).order_id = s.order_id) ∧
    (distinctOrderIds sales → insertSale sales sid t = some out →
      distinctOrderIds out) := by
  refine ⟨fun h => ⟨?_, uuidHex8Upper_length u, uuidHex8Upper_isUpperHex u⟩,
    fun h => ?_, fun hd hi => insertSale_distinct sales out sid t hd hi⟩
  · rw [Sale.save, if_pos h]; rfl
  · rw [Sale.save, if_neg h]

lemma find_map_update (l : List (ℕ × Product)) (pid pid2 : ℕ) (f : Product → Product) :
    (l.map (fun e => if e.1 = pid then (e.1, f e.2) else e)).find? (fun e => e.1 = pid2)
      = if pid2 = pid then (l.find? (fun e => e.1 = pid2)).map (fun e => (e.1, f e.2))
        else l.find? (fun e => e.1 = pid2) := by
  induction l with
  | nil => by_cases h : pid2 = pid <;> simp [h]
  | cons a l ih =>
      rcases a with ⟨i, p⟩
      rw [List.map_cons]
      dsimp only
      by_cases h1 : i = pid
      · rw [if_pos h1]
        by_cases h2 : i = pid2
        · have hp : pid2 = pid := by rw [← h2, h1]
          have hd : decide (i = pid2) = true := by simp [h2]
          rw [List.find?_cons, List.find?_cons]
          dsimp only
          rw [hd, if_pos hp]
          rfl
        · have hp : ¬pid2 = pid := fun hc => h2 (by rw [h1, ← hc])
          have hd : decide (i = pid2) = false := by simp [h2]
          rw [List.find?_cons, List.find?_cons]
          dsimp only
          rw [hd]
          dsimp only
          rw [ih]
      · rw [if_neg h1]
        by_cases h2 : i = pid2
        · have hp : ¬pid2 = pid := fun hc => h1 (by rw [h2, hc])
          have hd : decide (i = pid2) = true := by simp [h2]
          rw [List.find?_cons, List.find?_cons]
          dsimp only
          rw [hd, if_neg hp]
        · have hd : decide (i = pid2) = false := by simp [h2]
          rw [List.find?_cons, List.find?_cons]
          dsimp only
          rw [hd]
          dsimp only
          rw [ih]

lemma findProduct_updateProduct (db : DB) (pid pid2 : ℕ) (f : Product → Product) :
    (db.updateProduct pid f).findProduct pid2
      = if pid2 = pid then (db.findProduct pid2).map f else db.findProduct pid2 := by
  have hprod : (db.updateProduct pid f).products
      = db.products.map (fun e => if e.1 = pid then (e.1, f e.2) else e) := rfl
  rw [DB.findProduct, hprod, find_map_update]
  by_cases h : pid2 = pid
  · simp only [if_pos h, DB.findProduct, Option.map_map]
    rfl
  · simp only [if_neg h, DB.findProduct]

lemma stockOf_receipts_irrel (db : DB) (rs : List StockReceipt) (pid : ℕ) :
    DB.stockOf { db with stock_receipts := rs } pid = db.stockOf pid := rfl

/-- Claim C1: a successful `recordReceipt` both inserts the receipt row
and increments the referenced product's `stock_quantity` by `quantity`,
touching no other product and no sale data; in this embedding the two
effects are one step, and every failure path returns `none`, leaving the
caller's state untouched — the receipt insert and the stock increment
are inseparable. -/
theorem claim_C1 (db db' : DB) (pid q rb : ℕ) (cost : ℚ) (sn sno : String)
    (h : recordReceipt db pid q cost rb sn sno = some db') :
    db'.stock_receipts =
      { product := pid, quantity := q, cost_price_at_receipt := cost,
        supplier_name := sn, supplier_notes := sno, received_by := rb }
        :: db.stock_receipts ∧
    db'.stockOf pid = db.stockOf pid + q ∧
    (∀ pid2, pid2 ≠ pid → db'.stockOf pid2 = db.stockOf pid2) ∧
    db'.sales = db.sales ∧
    db'.sale_items = db.sale_items := by
  rw [recordReceipt] at h
  by_cases hv : StockReceipt.validate
      { product := pid, quantity := q, cost_price_at_receipt := cost,
        supplier_name := sn, supplier_notes := sno, received_by := rb } = true
  · rw [if_neg (by simp [hv])] at h
    cases hfind : db.findProduct pid with
    | none => rw [hfind] at h; cases h
    | some p =>
        rw [hfind] at h
        obtain rfl := Option.some.inj h
        refine ⟨rfl, ?_, fun pid2 hne => ?_, rfl, rfl⟩
        · rw [stockOf_receipts_irrel]
          simp only [DB.stockOf]
          rw [findProduct_updateProduct, if_pos rfl, hfind]
          rfl
        · rw [stockOf_receipts_irrel]
          simp only [DB.stockOf]
          rw [findProduct_updateProduct, if_neg hne]
  · rw [if_pos (by simp [Bool.eq_false_iff.mpr hv])] at h
    cases h

/-- A concrete product for the witness states. -/
def wprod : Product :=
  { sku := "LIP-001", name := "Velvet Lipstick", brand := "Glow", category := "LIPS",
    description := "", cost_price := 10, selling_price := 18, stock_quantity := 5,
    restock_threshold := 10, is_active := true }

/-- A concrete one-product database for the witness states. -/
def wdb0 : DB :=
  { products := [(1, wprod)], stock_receipts := [], sales := [], sale_items := [],
    next_sale_id := 1 }

/-- The receipt row of the C1 witness run. -/
def wreceipt7 : StockReceipt :=
  { product := 1, quantity := 7, cost_price_at_receipt := 12, supplier_name := "",
    supplier_notes := "", received_by := 1 }

/-- The database after the C1 witness run: stock went from 5 to 12. -/
def wdb1 : DB :=
  { products := [(1, { wprod with stock_quantity := 12 })],
    stock_receipts := [wreceipt7], sales := [], sale_items := [],
    next_sale_id := 1 }

/-- Claim C1 witness: recording a 7-unit receipt against the one-product
store commits, inserts exactly the receipt row and raises the product's
stock from 5 to 12. -/
theorem claim_C1_witness :
    wdb1.stock_receipts = wreceipt7 :: wdb0.stock_receipts ∧
    wdb1.stockOf 1 = wdb0.stockOf 1 + 7 ∧
    (∀ pid2, pid2 ≠ 1 → wdb1.stockOf pid2 = wdb0.stockOf pid2) ∧
    wdb1.sales = wdb0.sales ∧
    wdb1.sale_items = wdb0.sale_items :=
  claim_C1 wdb0 wdb1 1 7 1 12 "" ""
    (by norm_num [recordReceipt, StockReceipt.validate, DB.findProduct,
      DB.updateProduct, wdb0, wdb1, wprod, wreceipt7])

lemma stepStock_inv (st : StockTrace) (op : StockOp) :
    ((stepStock st op).stock : ℤ) + (stepStock st op).sold - (stepStock st op).receipts
      = (st.stock : ℤ) + st.sold - st.receipts := by
  cases op with
  | receipt q =>
      rw [stepStock]
      split
      · cases hadj : adjustStock st.stock (q : ℤ) with
        | none => rfl
        | some s =>
            rw [adjustStock] at hadj
            split at hadj
            · cases hadj
            · obtain rfl := Option.some.inj hadj
              dsimp only
              push_cast
              omega
      · rfl
  | sale q =>
      rw [stepStock]
      split
      · cases hadj : adjustStock st.stock (-(q : ℤ)) with
        | none => rfl
        | some s =>
            rw [adjustStock] at hadj
            split at hadj
            · cases hadj
            · obtain rfl := Option.some.inj hadj
              dsimp only
              push_cast
              omega
      · rfl

lemma foldl_stepStock_inv (ops : List StockOp) : ∀ st : StockTrace,
    ((ops.foldl stepStock st).stock : ℤ) + (ops.foldl stepStock st).sold
        - (ops.foldl stepStock st).receipts
      = (st.stock : ℤ) + st.sold - st.receipts := by
  induction ops with
  | nil => intro st; simp
  | cons op ops ih =>
      intro st
      rw [List.foldl_cons, ih (stepStock st op), stepStock_inv]

/-- Claim C2: after any sequence of committed stock receipts and
committed sales against one product, the stock count equals the initial
count plus the committed receipt total minus the committed sale total,
and is never negative (the embedding keeps `stock_quantity` in `ℕ`, and
`adjustStock` refuses any adjustment that would make it negative). -/
theorem claim_C2 (init : ℕ) (ops : List StockOp) :
    ((runStock init ops).stock : ℤ)
      = (init : ℤ) + (runStock init ops).receipts - (runStock init ops).sold ∧
    0 ≤ ((runStock init ops).stock : ℤ) := by
  have h := foldl_stepStock_inv ops { stock := init, receipts := 0, sold := 0 }
  dsimp only at h
  rw [runStock]
  constructor
  · omega
  · exact Int.natCast_nonneg _

lemma subtotalSum_append (l1 l2 : List SaleItem) :
    subtotalSum (l1 ++ l2) = subtotalSum l1 + subtotalSum l2 := by
  simp [subtotalSum]

lemma profitSum_append (l1 l2 : List SaleItem) :
    profitSum (l1 ++ l2) = profitSum l1 + profitSum l2 := by
  simp [profitSum]

lemma save_fresh_subtotal (sid pid q : ℕ) (sp cp : ℚ) :
    itemSubtotal
      (SaleItem.save
        { sale := sid, product := pid, quantity := q, unit_price := sp,
          unit_cost := cp, subtotal := none, profit := none }) = sp * q := by
  simp [SaleItem.save, falsy, itemSubtotal]

lemma save_fresh_profit (sid pid q : ℕ) (sp cp : ℚ) :
    itemProfit
      (SaleItem.save
        { sale := sid, product := pid, quantity := q, unit_price := sp,
          unit_cost := cp, subtotal := none, profit := none }) = (sp - cp) * q := by
  simp [SaleItem.save, falsy, itemProfit]

lemma saleLineStep_inv (sid : ℕ) (acc acc' : SaleAcc) (l : LineReq)
    (h : saleLineStep sid acc l = some acc') :
    acc'.subtotal - subtotalSum acc'.items = acc.subtotal - subtotalSum acc.items ∧
    acc'.profit - profitSum acc'.items = acc.profit - profitSum acc.items ∧
    acc'.db.sale_items = acc.db.sale_items ∧
    acc'.db.sales = acc.db.sales := by
  rw [saleLineStep] at h
  split at h
  · cases h
  · cases hfind : acc.db.findProduct l.product with
    | none =>
        simp only [hfind] at h
        cases h
    | some p =>
        simp only [hfind] at h
        split at h
        · cases h
        · split at h
          · cases h
          · obtain rfl := Option.some.inj h
            dsimp only
            refine ⟨?_, ?_, rfl, rfl⟩
            · rw [subtotalSum_append]
              have hs := save_fresh_subtotal sid l.product l.quantity
                p.selling_price p.cost_price
              rw [show subtotalSum [SaleItem.save
                  { sale := sid, product := l.product, quantity := l.quantity,
                    unit_price := p.selling_price, unit_cost := p.cost_price,
                    subtotal := none, profit := none }]
                = p.selling_price * l.quantity by
                  simpa [subtotalSum] using hs]
              ring
            · rw [profitSum_append]
              have hs := save_fresh_profit sid l.product l.quantity
                p.selling_price p.cost_price
              rw [show profitSum [SaleItem.save
                  { sale := sid, product := l.product, quantity := l.quantity,
                    unit_price := p.selling_price, unit_cost := p.cost_price,
                    subtotal := none, profit := none }]
                = (p.selling_price - p.cost_price) * l.quantity by
                  simpa [profitSum] using hs]
              ring

lemma processLines_inv (sid : ℕ) (ls : List LineReq) : ∀ acc acc' : SaleAcc,
    processLines sid acc ls = some acc' →
    acc'.subtotal - subtotalSum acc'.items = acc.subtotal - subtotalSum acc.items ∧
    acc'.profit - profitSum acc'.items = acc.profit - profitSum acc.items ∧
    acc'.db.sale_items = acc.db.sale_items ∧
    acc'.db.sales = acc.db.sales := by
  induction ls with
  | nil =>
      intro acc acc' h
      obtain rfl := Option.some.inj h
      exact ⟨rfl, rfl, rfl, rfl⟩
  | cons l ls ih =>
      intro acc acc' h
      rw [processLines] at h
      cases hstep : saleLineStep sid acc l with
      | none =>
          simp only [hstep] at h
          cases h
      | some acc1 =>
          simp only [hstep] at h
          have h1 := saleLineStep_inv sid acc acc1 l hstep
          have h2 := ih acc1 acc' h
          exact ⟨by rw [h2.1, h1.1], by rw [h2.2.1, h1.2.1],
            by rw [h2.2.2.1, h1.2.2.1], by rw [h2.2.2.2, h1.2.2.2]⟩

/-- Claim C4: a committed `createSale` produces a Sale whose `subtotal`
is the sum of its items' stored `subtotal` values, whose `profit` is the
sum of its items' stored `profit` values, and whose `total` is
`subtotal + tax`; the returned items are exactly the sale-item rows the
commit appended to the store. -/
theorem claim_C4 (db db' : DB) (c u : ℕ) (pm : String) (tax : ℚ)
    (oid : String) (lines : List LineReq) (nts : String)
    (sale : Sale) (items : List SaleItem)
    (h : createSale db c pm tax u oid lines nts = some (sale, items, db')) :
    sale.subtotal = subtotalSum items ∧
    sale.profit = profitSum items ∧
    sale.total = sale.subtotal + sale.tax ∧
    db'.sale_items = items ++ db.sale_items := by
  rw [createSale] at h
  split at h
  · cases h
  · cases hproc : processLines db.next_sale_id
        { db := db, items := [], subtotal := 0, profit := 0 } lines with
    | none =>
        simp only [hproc] at h
        cases h
    | some acc =>
        simp only [hproc] at h
        have hinv := processLines_inv db.next_sale_id lines
          { db := db, items := [], subtotal := 0, profit := 0 } acc hproc
        cases hins : insertSale acc.db.sales db.next_sale_id
            (Sale.save u
              { order_id := oid, cashier := c, subtotal := acc.subtotal,
                tax := tax, total := acc.subtotal + tax, profit := acc.profit,
                payment_method := pm, notes := nts }) with
        | none =>
            simp only [hins] at h
            cases h
        | some sales' =>
            simp only [hins] at h
            rw [Option.some.injEq, Prod.mk.injEq, Prod.mk.injEq] at h
            obtain ⟨hsale, hitems, hdb⟩ := h
            subst hsale hitems hdb
            have hsub : acc.subtotal = subtotalSum acc.items := by
              have h0 := hinv.1
              dsimp only at h0
              simp only [subtotalSum, List.map_nil, List.sum_nil] at h0 ⊢
              linarith
            have hpro : acc.profit = profitSum acc.items := by
              have h0 := hinv.2.1
              dsimp only at h0
              simp only [profitSum, List.map_nil, List.sum_nil] at h0 ⊢
              linarith
            refine ⟨?_, ?_, ?_, ?_⟩
            · rw [sale_save_subtotal]
              exact hsub
            · rw [sale_save_profit]
              exact hpro
            · rw [sale_save_total, sale_save_subtotal, sale_save_tax]
            · dsimp only
              rw [hinv.2.2.1]

lemma genOrderId_zero : genOrderId 0 = "#ORD-00000000" := by decide

/-- The sale header of the C4 witness run: 2 units at 18 with cost 10
and tax 1. -/
def wsale : Sale :=
  { order_id := "#ORD-00000000", cashier := 1, subtotal := 36, tax := 1,
    total := 37, profit := 16, payment_method := "CASH", notes := "" }

/-- The sale items of the C4 witness run. -/
def witems : List SaleItem :=
  [{ sale := 1, product := 1, quantity := 2, unit_price := 18, unit_cost := 10,
     subtotal := some 36, profit := some 16 }]

/-- The database after the C4 witness run: stock went from 5 to 3. -/
def wdb2 : DB :=
  { products := [(1, { wprod with stock_quantity := 3 })],
    stock_receipts := [], sales := [(1, wsale)], sale_items := witems,
    next_sale_id := 2 }

/-- Claim C4 witness: the concrete committed sale of 2 units at price 18
and cost 10 with tax 1 has subtotal 36 = sum of item subtotals, profit
16 = sum of item profits, and total 37 = 36 + 1. -/
theorem claim_C4_witness :
    wsale.subtotal = subtotalSum witems ∧
    wsale.profit = profitSum witems ∧
    wsale.total = wsale.subtotal + wsale.tax ∧
    wdb2.sale_items = witems ++ wdb0.sale_items :=
  claim_C4 wdb0 wdb2 1 0 "CASH" 1 "" [{ product := 1, quantity := 2 }] ""
    wsale witems
    (by norm_num [createSale, processLines, saleLineStep, DB.findProduct,
      DB.updateProduct, SaleItem.save, falsy, Sale.save, genOrderId_zero,
      insertSale, wdb0, wprod, wsale, witems, wdb2])

/-- A freshly constructed sale item whose `subtotal` is unset and whose
`profit` was explicitly supplied nonzero. -/
def wItem5 : SaleItem :=
  { sale := 2, product := 3, quantity := 4, unit_price := 6, unit_cost := 2,
    subtotal := none, profit := some 7 }

/-- Claim C5 witness: on a fresh item, `save` fills the unset `subtotal`
with `unit_price × quantity` and keeps the explicitly supplied nonzero
`profit` as given. -/
theorem claim_C5_witness :
    (SaleItem.save wItem5).subtotal = some (wItem5.unit_price * wItem5.quantity) ∧
    (SaleItem.save wItem5).profit = wItem5.profit :=
  ⟨(claim_C5 wItem5).1 rfl, (claim_C5 wItem5).2.2.2 (by decide)⟩

/-- A sale submitted without an `order_id`. -/
def wsaleC7 : Sale :=
  { order_id := "", cashier := 1, subtotal := 0, tax := 0, total := 0,
    profit := 0, payment_method := "CASH", notes := "" }

/-- Claim C7 witness: saving an id-less sale with UUID value 0 stamps
the generated `#ORD-` id, saving a sale that already has an id keeps it,
and inserting into the empty store preserves order-id distinctness. -/
theorem claim_C7_witness :
    ((Sale.save 0 wsaleC7).order_id = "#ORD-" ++ String.mk (uuidHex8Upper 0) ∧
      (uuidHex8Upper 0).length = 8 ∧
      ∀ c ∈ uuidHex8Upper 0, isUpperHex c = true) ∧
    (Sale.save 0 wsale).order_id = wsale.order_id ∧
    distinctOrderIds [(1, wsale)] :=
  ⟨(claim_C7 0 1 wsaleC7 wsale [] [(1, wsale)]).1 rfl,
   (claim_C7 0 1 wsale wsale [] [(1, wsale)]).2.1 (by decide),
   (claim_C7 0 1 wsale wsale [] [(1, wsale)]).2.2 List.Pairwise.nil rfl⟩

/-- Claim C8 witness: in the store holding one receipt for product 1,
deleting product 1 is refused, and deleting a sale filters exactly its
items. -/
theorem claim_C8_witness :
    wdb1.deleteProduct 1 = none ∧
    (wdb1.deleteSale 0).sale_items = wdb1.sale_items.filter (fun it => !(it.sale = 0)) :=
  ⟨(claim_C8 wdb1 1 0).1 (by decide), (claim_C8 wdb1 1 0).2.1⟩

/-- Claim C9 witness: the concrete product with cost 10, price 18, stock
5 and threshold 10 needs restock, and its profit percentage is computed
by the positive-cost formula. -/
theorem claim_C9_witness :
    (wprod.needs_restock = true ↔ wprod.stock_quantity ≤ wprod.restock_threshold) ∧
    wprod.profit_percentage = wprod.profit_per_unit / wprod.cost_price * 100 :=
  ⟨(claim_C9 wprod).1, (claim_C9 wprod).2.2.1 (by norm_num [wprod])⟩

end Cosmo
